import Mathlib

/-!
Verification of the Repo Guardian CI-triage engine
(`tools/repo_guardian.py` and `tools/repo_guardian_angel.py`).

The Python modules are shallowly embedded: pure functions become Lean
functions over `Nat`/`Int`/`ℚ` and `String`; the stateful reactive
pipeline (`TriageService.handle_workflow_run_completed`) is embedded as
an explicit state-passing function over a `World` record holding the
GitHub adapter's visible state and the Redis-backed state store, with a
trace of the port operations performed; Python exceptions become an
explicit error result carrying the state at the moment the exception
escapes.  `hashlib.sha256` and `hmac` are implemented bit-faithfully
over byte lists (`Nat` values < 256, arithmetic mod 2^32).
-/

set_option maxRecDepth 100000

namespace RepoGuardian

/-! ## SHA-256 (`hashlib.sha256`), byte-level, arithmetic mod 2^32 -/

/-- Right rotation of a 32-bit word (values kept as `Nat < 2^32`). -/
def rotr32 (n x : Nat) : Nat := ((x >>> n) ||| (x <<< (32 - n))) % 4294967296

def bigSigma0 (x : Nat) : Nat := rotr32 2 x ^^^ rotr32 13 x ^^^ rotr32 22 x
def bigSigma1 (x : Nat) : Nat := rotr32 6 x ^^^ rotr32 11 x ^^^ rotr32 25 x
def smallSigma0 (x : Nat) : Nat := rotr32 7 x ^^^ rotr32 18 x ^^^ (x >>> 3)
def smallSigma1 (x : Nat) : Nat := rotr32 17 x ^^^ rotr32 19 x ^^^ (x >>> 10)
def chFn (e f g : Nat) : Nat := (e &&& f) ^^^ ((e ^^^ 4294967295) &&& g)
def majFn (a b c : Nat) : Nat := (a &&& b) ^^^ (a &&& c) ^^^ (b &&& c)

/-- The 64 SHA-256 round constants (FIPS 180-4), in decimal. -/
def sha256K : List Nat :=
  [1116352408, 1899447441, 3049323471, 3921009573, 961987163,
   1508970993, 2453635748, 2870763221, 3624381080, 310598401,
   607225278, 1426881987, 1925078388, 2162078206, 2614888103,
   3248222580, 3835390401, 4022224774, 264347078, 604807628,
   770255983, 1249150122, 1555081692, 1996064986, 2554220882,
   2821834349, 2952996808, 3210313671, 3336571891, 3584528711,
   113926993, 338241895, 666307205, 773529912, 1294757372,
   1396182291, 1695183700, 1986661051, 2177026350, 2456956037,
   2730485921, 2820302411, 3259730800, 3345764771, 3516065817,
   3600352804, 4094571909, 275423344, 430227734, 506948616,
   659060556, 883997877, 958139571, 1322822218, 1537002063,
   1747873779, 1955562222, 2024104815, 2227730452, 2361852424,
   2428436474, 2756734187, 3204031479, 3329325298]

/-- The initial SHA-256 hash state, in decimal. -/
def sha256InitH : List Nat :=
  [1779033703, 3144134277, 1013904242, 2773480762, 1359893119,
   2600822924, 528734635, 1541459225]

/-- Group a byte list into big-endian 32-bit words. -/
def toWords : List Nat → List Nat
  | b0 :: b1 :: b2 :: b3 :: rest => (((b0 * 256 + b1) * 256 + b2) * 256 + b3) :: toWords rest
  | _ => []

/-- Big-endian 8-byte encoding of a natural number (the bit-length field). -/
def be64 (n : Nat) : List Nat :=
  [(n >>> 56) % 256, (n >>> 48) % 256, (n >>> 40) % 256, (n >>> 32) % 256,
   (n >>> 24) % 256, (n >>> 16) % 256, (n >>> 8) % 256, n % 256]

/-- Big-endian 4-byte encoding of a 32-bit word. -/
def be32 (n : Nat) : List Nat :=
  [(n >>> 24) % 256, (n >>> 16) % 256, (n >>> 8) % 256, n % 256]

/-- SHA-256 padding: append 0x80, zeros to 56 mod 64, then the 64-bit bit length. -/
def padMessage (msg : List Nat) : List Nat :=
  let z := (119 - msg.length % 64) % 64
  msg ++ [0x80] ++ List.replicate z 0 ++ be64 (msg.length * 8)

/-- Extend the 16 message-schedule words to 64. -/
def extendSchedule (ws : List Nat) : List Nat :=
  (List.range 48).foldl
    (fun acc _ =>
      let n := acc.length
      let wt := (smallSigma1 (acc.getD (n - 2) 0) + acc.getD (n - 7) 0 +
                 smallSigma0 (acc.getD (n - 15) 0) + acc.getD (n - 16) 0) % 4294967296
      acc ++ [wt]) ws

/-- One round of the SHA-256 compression function on the 8-word state. -/
def sha256Round (st : List Nat) (kw : Nat × Nat) : List Nat :=
  match st with
  | [a, b, c, d, e, f, g, h] =>
    let t1 := (h + bigSigma1 e + chFn e f g + kw.1 + kw.2) % 4294967296
    let t2 := (bigSigma0 a + majFn a b c) % 4294967296
    [(t1 + t2) % 4294967296, a, b, c, (d + t1) % 4294967296, e, f, g]
  | other => other

/-- Process one 64-byte chunk. -/
def processChunk (st : List Nat) (chunk : List Nat) : List Nat :=
  let w := extendSchedule (toWords chunk)
  let st2 := (sha256K.zip w).foldl sha256Round st
  (st.zip st2).map fun xy => (xy.1 + xy.2) % 4294967296

/-- Split into 64-byte chunks (fuel-based so that it reduces in the kernel). -/
def chunksGo : Nat → List Nat → List (List Nat)
  | 0, _ => []
  | _, [] => []
  | fuel + 1, l => l.take 64 :: chunksGo fuel (l.drop 64)

def chunks64 (l : List Nat) : List (List Nat) := chunksGo l.length l

/-- SHA-256 digest (32 bytes) of a byte list. -/
def sha256 (msg : List Nat) : List Nat :=
  let final := (chunks64 (padMessage msg)).foldl processChunk sha256InitH
  (final.map be32).flatten

def hexChar (n : Nat) : Char := "0123456789abcdef".toList.getD n '0'

def byteHex (b : Nat) : String := String.mk [hexChar (b / 16), hexChar (b % 16)]

def bytesToHex (l : List Nat) : String := (l.map byteHex).foldl (· ++ ·) ""

/-- `hashlib.sha256(msg).hexdigest()`. -/
def sha256hex (msg : List Nat) : String := bytesToHex (sha256 msg)

/-- UTF-8 encoding of one code point (`str.encode()`). -/
def utf8Encode (c : Nat) : List Nat :=
  if c < 0x80 then [c]
  else if c < 0x800 then [0xc0 + c / 64, 0x80 + c % 64]
  else if c < 0x10000 then [0xe0 + c / 4096, 0x80 + c / 64 % 64, 0x80 + c % 64]
  else [0xf0 + c / 262144, 0x80 + c / 4096 % 64, 0x80 + c / 64 % 64, 0x80 + c % 64]

/-- `s.encode()`: UTF-8 bytes of a string. -/
def strBytes (s : String) : List Nat := (s.toList.map fun ch => utf8Encode ch.toNat).flatten

/-- `hmac.new(key, msg, hashlib.sha256).digest()`. -/
def hmacSha256 (key msg : List Nat) : List Nat :=
  let key1 := if 64 < key.length then sha256 key else key
  let key0 := key1 ++ List.replicate (64 - key1.length) 0
  let ipad := key0.map fun b => b ^^^ 0x36
  let opad := key0.map fun b => b ^^^ 0x5c
  sha256 (opad ++ sha256 (ipad ++ msg))

def hmacSha256Hex (key msg : List Nat) : String := bytesToHex (hmacSha256 key msg)

/-! ## Domain model (`repo_guardian.py`, Pure, Immutable) -/

/-- The `Conclusion` string enum. -/
inductive Conclusion
  | success | failure | cancelled | timed_out | skipped | neutral | action_required
deriving DecidableEq, Repr

/-- The enum member's string value. -/
def Conclusion.value : Conclusion → String
  | .success => "success"
  | .failure => "failure"
  | .cancelled => "cancelled"
  | .timed_out => "timed_out"
  | .skipped => "skipped"
  | .neutral => "neutral"
  | .action_required => "action_required"

/-- Immutable triple identifying a CI run. -/
structure RunId where
  owner : String
  repo : String
  run_id : Nat
deriving DecidableEq, Repr

/-- `RunId.__str__`: `f"{owner}/{repo}#{run_id}"`. -/
def RunId.str (r : RunId) : String :=
  r.owner ++ "/" ++ r.repo ++ "#" ++ toString r.run_id

/-- Content-addressed failure signature. -/
structure FailureFingerprint where
  workflow_name : String
  conclusion : Conclusion
  event : String
  matrix_key : Option String
deriving DecidableEq, Repr

/-- The preimage string built by `FailureFingerprint.hash`:
`f"{workflow_name}:{conclusion}:{event}:{matrix_key or ''}"` (the str-enum
formats as its value; `matrix_key or ''` maps `None` to the empty string). -/
def FailureFingerprint.content (fp : FailureFingerprint) : String :=
  fp.workflow_name ++ ":" ++ fp.conclusion.value ++ ":" ++ fp.event ++ ":" ++
    fp.matrix_key.getD ""

/-- `hashlib.sha256(content.encode()).hexdigest()[:16]`. -/
def FailureFingerprint.hash (fp : FailureFingerprint) : String :=
  (sha256hex (strBytes fp.content)).take 16

/-- Immutable snapshot of a workflow run (datetimes as integral timestamps). -/
structure WorkflowRun where
  id : RunId
  name : String
  head_branch : String
  head_sha : String
  conclusion : Conclusion
  event : String
  html_url : String
  created_at : Nat
  updated_at : Nat
  logs_url : Option String
deriving DecidableEq, Repr

/-- `WorkflowRun.fingerprint`: pure derived property, `matrix_key=None`. -/
def WorkflowRun.fingerprint (run : WorkflowRun) : FailureFingerprint :=
  { workflow_name := run.name
    conclusion := run.conclusion
    event := run.event
    matrix_key := none }

/-- `conclusion in {FAILURE, TIMED_OUT, CANCELLED}`. -/
def WorkflowRun.is_failure (run : WorkflowRun) : Bool :=
  match run.conclusion with
  | .failure | .timed_out | .cancelled => true
  | _ => false

/-- Value object describing the tracking issue. -/
structure TriageIssue where
  fingerprint_hash : String
  title : String
  body : String
  labels : List String
  metadata_run_id : String
  metadata_sha : String
deriving DecidableEq, Repr

/-- Python's `sub in s` substring test. -/
def containsSub (s pat : String) : Bool := decide (pat.toList <:+: s.toList)

/-! ## Application configuration and pure issue generation -/

/-- `GuardianConfig` with its Python defaults.  The Python field
`issue_prefix` is renamed `issue_lead` here. -/
structure GuardianConfig where
  issue_lead : String := "[Repo Guardian] "
  issue_header : String := "Automated CI triage"
  labels : List String := ["ci-failure", "automated"]
  autofix_enabled : Bool := false
  autofix_confidence_threshold : ℚ := 9/10
deriving DecidableEq, Repr

/-- `generate_issue`: pure function run → issue content.  The Python body
interpolates `datetime.now()`; that clock reading is passed as `now`. -/
def generate_issue (run : WorkflowRun) (fingerprint_hash : String)
    (config : GuardianConfig) (now : Nat) : TriageIssue :=
  { fingerprint_hash := fingerprint_hash
    title := config.issue_lead ++ "CI Failure: " ++ run.name ++ " [" ++
             fingerprint_hash.take 8 ++ "]"
    body := config.issue_header ++ "\n\n**Failure Signature:** `" ++
            fingerprint_hash ++ "`\n| Field | Value |\n|-------|-------|\n| Workflow | `" ++
            run.name ++ "` |\n| Conclusion | `" ++ run.conclusion.value ++
            "` |\n| Event | `" ++ run.event ++ "` |\n| Branch | `" ++
            run.head_branch ++ "` |\n| Commit | `" ++ run.head_sha.take 8 ++
            "` |\n\n**Run URL:** " ++ run.html_url ++ "\n**First Seen:** " ++
            toString run.created_at ++ "\n**Last Updated:** " ++ toString now ++
            "\n\n<details>\n<summary>Diagnosis Guide</summary>\n\n1. Check logs: `gh run view " ++
            toString run.id.run_id ++
            " --log`\n2. If flaky: Add `retry` to workflow or quarantine test\n3. If deterministic: Fix root cause, add regression test\n4. If infra-related: Escalate to platform team\n\n</details>\n"
    labels := config.labels
    metadata_run_id := run.id.str
    metadata_sha := run.head_sha }

/-! ## Port-visible state: GitHub adapter and Redis state store

The `GitHubRESTAdapter` and `RedisStateStore` act on remote state that the
embedding makes explicit: the GitHub side carries the workflow runs the API
would return, the issue list, and the next issue number; the Redis side
carries the two key namespaces (`op:*` processed-operation ledger and
`fp:*` fingerprint links; the TTL is not modelled).  Each port operation
has a tag; a `failures` oracle in `World` says which port calls raise
(HTTP timeout / 5xx / Redis error), letting theorems quantify over every
failure point. -/

/-- Tags for the port operations the reactive pipeline performs. -/
inductive PortOp
  | isProcessedQ | getRunQ | searchIssues | patchIssue | postIssue | linkFp
  | markProcessed
deriving DecidableEq, Repr

/-- A Python exception escaping a port call or an oracle. -/
inductive GuardErr
  | portFailure (op : PortOp)
  | oracleFailure (name : String)
deriving DecidableEq, Repr

/-- Issue state on GitHub (the search in `find_existing_issue` does not
filter on it). -/
inductive IssueState
  | isOpen | isClosed
deriving DecidableEq, Repr

/-- An issue as visible through the GitHub API. -/
structure GhIssue where
  owner : String
  repo : String
  number : Nat
  title : String
  body : String
  labels : List String
  state : IssueState
deriving DecidableEq, Repr

/-- The remote attributes of a workflow run as returned by
`GET /repos/{owner}/{repo}/actions/runs/{run_id}`. -/
structure RunData where
  name : String
  head_branch : String
  head_sha : String
  conclusion : Conclusion
  event : String
  html_url : String
  created_at : Nat
  updated_at : Nat
  logs_url : Option String
deriving DecidableEq, Repr

/-- GitHub-side state visible through the port. -/
structure GitHubState where
  runsTable : List (RunId × RunData)
  issues : List GhIssue
  nextNumber : Nat
deriving DecidableEq, Repr

/-- Association-list lookup (first binding wins, like a fresh Redis `SET`). -/
def alookup {κ α : Type} [BEq κ] : List (κ × α) → κ → Option α
  | [], _ => none
  | (k, v) :: rest, key => if k == key then some v else alookup rest key

/-- `GitHubRESTAdapter.get_workflow_run`: build a `WorkflowRun` from the
response for the requested id; `none` models `raise_for_status()` firing. -/
def get_workflow_run (gh : GitHubState) (run_id : RunId) : Option WorkflowRun :=
  (alookup gh.runsTable run_id).map fun d =>
    { id := run_id
      name := d.name
      head_branch := d.head_branch
      head_sha := d.head_sha
      conclusion := d.conclusion
      event := d.event
      html_url := d.html_url
      created_at := d.created_at
      updated_at := d.updated_at
      logs_url := d.logs_url }

/-- `GitHubRESTAdapter.find_existing_issue`: search
`repo:{owner}/{repo} is:issue in:title {hash_str}` and take `items[0]`.
The query has no open/closed filter. -/
def find_existing_issue (gh : GitHubState) (owner repo : String)
    (fingerprint : FailureFingerprint) : Option GhIssue :=
  gh.issues.find? fun i =>
    i.owner == owner && i.repo == repo && containsSub i.title fingerprint.hash

/-- `PATCH /repos/{owner}/{repo}/issues/{issue_number}` with
`{title, body, labels}` (the state field is not sent, so it is unchanged). -/
def githubPatchIssue (gh : GitHubState) (number : Nat) (issue : TriageIssue) :
    GitHubState :=
  { gh with
    issues := gh.issues.map fun i =>
      if i.number == number then
        { i with title := issue.title, body := issue.body, labels := issue.labels }
      else i }

/-- `POST /repos/{owner}/{repo}/issues`: a new open issue gets the next
number. -/
def githubPostIssue (gh : GitHubState) (owner repo : String) (issue : TriageIssue) :
    GitHubState :=
  { gh with
    issues := gh.issues ++
      [{ owner := owner
         repo := repo
         number := gh.nextNumber
         title := issue.title
         body := issue.body
         labels := issue.labels
         state := .isOpen }]
    nextNumber := gh.nextNumber + 1 }

/-- `GitHubRESTAdapter.create_or_update_issue`: search for an existing issue
whose title carries the fingerprint hash, then PATCH it, else POST a new
one; returns the issue number of the response.  `fail` injects HTTP
failures at each call. -/
def create_or_update_issue (fail : PortOp → Bool) (gh : GitHubState)
    (owner repo : String) (fingerprint : FailureFingerprint)
    (issue : TriageIssue) : Except GuardErr (GitHubState × Nat × List PortOp) :=
  if fail .searchIssues then .error (.portFailure .searchIssues)
  else
    match find_existing_issue gh owner repo fingerprint with
    | some existing =>
      if fail .patchIssue then .error (.portFailure .patchIssue)
      else .ok (githubPatchIssue gh existing.number issue, existing.number,
                [.searchIssues, .patchIssue])
    | none =>
      if fail .postIssue then .error (.portFailure .postIssue)
      else .ok (githubPostIssue gh owner repo issue, gh.nextNumber,
                [.searchIssues, .postIssue])

/-- `RedisStateStore`: `{"action": "none", "reason": "success"}` or
`{"action": "triaged", "issue_number": n, "remediation": b}`. -/
inductive ProcResult
  | successNoAction
  | triaged (issue_number : Nat) (remediation : Bool)
deriving DecidableEq, Repr

/-- The two Redis key namespaces (`op:{operation_id}` and
`fp:{owner}/{repo}:{hash}`); prefixes keep them disjoint, so they are two
association lists. -/
structure StoreState where
  ops : List (String × ProcResult)
  fps : List (String × Nat)
deriving DecidableEq, Repr

/-- All state the reactive pipeline reads or writes, plus the failure
injection oracle for port calls. -/
structure World where
  github : GitHubState
  store : StoreState
  now : Nat
  failures : PortOp → Bool

/-- Parsed `workflow_run.completed` payload fields the handler reads. -/
structure Payload where
  owner : String
  repo : String
  workflow_run_id : Nat
  action : String
deriving DecidableEq, Repr

def Payload.runId (p : Payload) : RunId := ⟨p.owner, p.repo, p.workflow_run_id⟩

/-- `operation_id = f"run:{run_id}"`. -/
def operationId (p : Payload) : String := "run:" ++ p.runId.str

/-- `RedisStateStore.is_processed`: `EXISTS op:{operation_id}`. -/
def is_processed (w : World) (operation_id : String) : Bool :=
  (alookup w.store.ops ("op:" ++ operation_id)).isSome

/-- `RedisStateStore.mark_processed`: `SETEX op:{operation_id}`. -/
def mark_processed (w : World) (operation_id : String) (result : ProcResult) :
    World :=
  { w with store := { w.store with
      ops := ("op:" ++ operation_id, result) :: w.store.ops } }

/-- `RedisStateStore.link_fingerprint_to_issue`:
`SETEX fp:{owner}/{repo}:{fingerprint_hash}`. -/
def link_fingerprint_to_issue (w : World) (owner repo fingerprint_hash : String)
    (issue_number : Nat) : World :=
  { w with store := { w.store with
      fps := ("fp:" ++ owner ++ "/" ++ repo ++ ":" ++ fingerprint_hash,
              issue_number) :: w.store.fps } }

/-! ## Remediation strategies -/

structure FilePatch where
  path : String
  original_content : Option String
  new_content : String
deriving DecidableEq, Repr

structure RemediationResult where
  branch_name : String
  commit_message : String
  patches : List FilePatch
  confidence : ℚ
deriving DecidableEq, Repr

/-- The two strategy classes defined in the module. -/
inductive Strategy
  | format   -- FormatRemediation
  | llm      -- LLMRemediation
deriving DecidableEq, Repr

/-- `can_remediate(run, logs)` of each strategy. -/
def can_remediate : Strategy → WorkflowRun → String → Bool
  | .format, _, logs =>
      containsSub logs "black --check" || containsSub logs "ruff format --check"
  | .llm, _, logs => containsSub logs "FAILED" && containsSub logs "Error:"

/-- `generate_fix(run, logs, github)` of each strategy (neither touches the
GitHub port). -/
def generate_fix : Strategy → WorkflowRun → String → Option RemediationResult
  | .format, run, _ =>
      some { branch_name := "repo-guardian/format-" ++ run.head_sha.take 8
             commit_message := "style: auto-format with black"
             patches := []
             confidence := 95/100 }
  | .llm, _, _ => none

/-- The strategy loop of `_attempt_remediation`: a strategy that cannot
remediate, returns no fix, or returns a low-confidence fix is skipped. -/
def remediationLoop (config : GuardianConfig) (run : WorkflowRun)
    (logs : String) : List Strategy → Option RemediationResult
  | [] => none
  | s :: rest =>
    if can_remediate s run logs then
      match generate_fix s run logs with
      | some result =>
        if config.autofix_confidence_threshold ≤ result.confidence then some result
        else remediationLoop config run logs rest
      | none => remediationLoop config run logs rest
    else remediationLoop config run logs rest

/-- `TriageService._attempt_remediation`: bail out when `run.logs_url` is
absent; otherwise the log fetch is commented out in the source and
`logs = ""` is passed to every strategy. -/
def attempt_remediation (config : GuardianConfig) (strategies : List Strategy)
    (run : WorkflowRun) : Option RemediationResult :=
  match run.logs_url with
  | none => none
  | some _ => remediationLoop config run "" strategies

/-! ## The reactive pipeline -/

/-- Outcome of one handler invocation: normal return or escaped exception,
with the world at that moment and the trace of port operations performed. -/
inductive HandleResult
  | ok (w : World) (trace : List PortOp)
  | err (e : GuardErr) (w : World) (trace : List PortOp)

/-- `TriageService.handle_workflow_run_completed(payload)`, the idempotent
reactive pipeline, with every port call able to raise. -/
def handle_workflow_run_completed (config : GuardianConfig)
    (strategies : List Strategy) (w : World) (p : Payload) : HandleResult :=
  let opId := operationId p
  if w.failures .isProcessedQ then .err (.portFailure .isProcessedQ) w []
  else if is_processed w opId then .ok w [.isProcessedQ]
  else if w.failures .getRunQ then .err (.portFailure .getRunQ) w [.isProcessedQ]
  else
    match get_workflow_run w.github p.runId with
    | none => .err (.portFailure .getRunQ) w [.isProcessedQ]
    | some run =>
      if !run.is_failure then
        if w.failures .markProcessed then
          .err (.portFailure .markProcessed) w [.isProcessedQ, .getRunQ]
        else
          .ok (mark_processed w opId .successNoAction)
              [.isProcessedQ, .getRunQ, .markProcessed]
      else
        let fp := run.fingerprint
        let fp_hash := fp.hash
        let issue := generate_issue run fp_hash config w.now
        match create_or_update_issue w.failures w.github p.owner p.repo fp issue with
        | .error e => .err e w [.isProcessedQ, .getRunQ]
        | .ok (gh2, issue_number, ghTrace) =>
          let w1 : World := { w with github := gh2 }
          if w.failures .linkFp then
            .err (.portFailure .linkFp) w1 ([.isProcessedQ, .getRunQ] ++ ghTrace)
          else
            let w2 := link_fingerprint_to_issue w1 p.owner p.repo fp_hash issue_number
            let remediation_result :=
              if config.autofix_enabled then attempt_remediation config strategies run
              else none
            if w.failures .markProcessed then
              .err (.portFailure .markProcessed) w2
                  ([.isProcessedQ, .getRunQ] ++ ghTrace ++ [.linkFp])
            else
              .ok (mark_processed w2 opId
                     (.triaged issue_number remediation_result.isSome))
                  ([.isProcessedQ, .getRunQ] ++ ghTrace ++ [.linkFp, .markProcessed])

/-! ## Webhook endpoint -/

/-- `verify_signature(body, signature, secret)`:
`"sha256=" + HMAC-SHA256(secret, body)` compared to the header
(`hmac.compare_digest` is plain equality on the outcome). -/
def verify_signature (body : List Nat) (signature : Option String)
    (secret : List Nat) : Bool :=
  match signature with
  | none => false
  | some s => ("sha256=" ++ hmacSha256Hex secret body) == s

/-- An inbound `POST /webhook` request: raw body bytes, the two headers,
and the parsed JSON payload of the body. -/
structure WebhookRequest where
  rawBody : List Nat
  x_github_event : String
  x_hub_signature_256 : Option String
  payload : Payload

/-- What the caller of `POST /webhook` observes: 401 on bad signature, a
terse `{"status": ...}` acknowledgement, or an exception escaping the
endpoint (an error response produced by the framework). -/
inductive WebhookResult
  | unauthorized (w : World)
  | acknowledged (status : String) (w : World) (trace : List PortOp)
  | unhandledError (e : GuardErr) (w : World) (trace : List PortOp)

/-- The `POST /webhook` endpoint of `create_app`, whose `TriageService` is
registered with the single strategy `FormatRemediation()`. -/
def webhook (config : GuardianConfig) (secret : List Nat) (w : World)
    (req : WebhookRequest) : WebhookResult :=
  if !(verify_signature req.rawBody req.x_hub_signature_256 secret) then
    .unauthorized w
  else if req.x_github_event == "workflow_run" && req.payload.action == "completed" then
    match handle_workflow_run_completed config [Strategy.format] w req.payload with
    | .ok w2 trace => .acknowledged "processed" w2 trace
    | .err e w2 trace => .unhandledError e w2 trace
  else .acknowledged "ignored" w []

/-! ## Guardian Angel domain (`repo_guardian_angel.py`) -/

inductive HealthDimension
  | flakiness | duration_regression | coverage_atrophy | dependency_risk
  | knowledge_silos
deriving DecidableEq, Repr

/-- `CommitInfo` is imported by the Angel from the Guardian module but is
absent from the source tree; it is modelled from its use sites: `author`
is compared for equality and `committed_at.isoformat()` is rendered. -/
structure CommitInfo where
  author : String
  committed_at : Nat
deriving DecidableEq, Repr

/-- `datetime.isoformat()` rendering of a timestamp; its exact shape is
irrelevant to every claim, only whether it is produced at all. -/
def isoformat (t : Nat) : String := toString t

/-- The evidence bags built by the three oracles. -/
inductive Evidence
  | flaky (test_name : String) (success_rate : ℚ) (samples : Nat)
  | durationReg (older_avg recent_avg : ℚ)
  | silo (file : String) (sole_author : String) (last_others_touch : Option String)
deriving DecidableEq, Repr

/-- A leading health indicator. -/
structure HealthSignal where
  dimension : HealthDimension
  severity : ℚ
  confidence : ℚ
  evidence : Evidence
  suggested_action : String
  affected_paths : List String
  detected_at : Nat
deriving DecidableEq, Repr

/-- A predicted future failure (`timedelta` as a day count). -/
structure Prophecy where
  probability : ℚ
  timeframe_days : Nat
  trigger : String
  prevention_strategy : String
  historical_precedent : Option String
deriving DecidableEq, Repr

/-- The health snapshot assembled by `perform_checkup` (`trends` is `{}` in
the source and omitted). -/
structure RepositoryHealth where
  owner : String
  repo : String
  overall_score : ℚ
  signals : List HealthSignal
  prophecies : List Prophecy
  default_branch : String := "main"
deriving DecidableEq, Repr

/-- A parsed per-test outcome as iterated by `FlakinessOracle.divine`. -/
structure Outcome where
  passed : Bool
  file_path : String
deriving DecidableEq, Repr

/-- `sum(1 for o in outcomes if o.passed) / len(outcomes)`. -/
def success_rate (outcomes : List Outcome) : ℚ :=
  ((outcomes.countP (·.passed) : ℚ)) / ((outcomes.length : ℚ))

/-- `statistics.variance`: sample variance with denominator `n − 1`
(Python computes it exactly on integral data). -/
def sampleVariance (xs : List ℚ) : ℚ :=
  let n : ℚ := xs.length
  let mean := xs.sum / n
  ((xs.map fun x => (x - mean) ^ 2).sum) / (n - 1)

/-- The flakiness severity formula `1 - abs(success_rate - 0.5) * 2`. -/
def flakSeverity (s : ℚ) : ℚ := 1 - |s - 1/2| * 2

namespace FlakinessOracle

/-- `FlakinessOracle.divine` as a function of the per-test outcome lists it
iterates over (`history.get_test_results(days=30)`) and of the clock. -/
def divine (now : Nat) (test_results : List (String × List Outcome)) :
    List HealthSignal :=
  test_results.flatMap fun tr =>
    let test_name := tr.1
    let outcomes := tr.2
    if outcomes.length < 5 then []
    else
      let sr := success_rate outcomes
      let variance : ℚ :=
        if 1 < outcomes.length then
          sampleVariance (outcomes.map fun o => if o.passed then (1 : ℚ) else 0)
        else 0
      if (1/10 < sr ∧ sr < 9/10) ∨ 1/10 < variance then
        [{ dimension := .flakiness
           severity := flakSeverity sr
           confidence := min ((outcomes.length : ℚ) / 20) 1
           evidence := .flaky test_name sr outcomes.length
           suggested_action := "Quarantine or fix test"
           affected_paths := [(outcomes.headD ⟨true, ""⟩).file_path]
           detected_at := now }]
      else []

end FlakinessOracle

namespace KnowledgeSiloOracle

/-- `_find_last_others_touch`: the first commit in list order whose author
differs from the first commit's author, rendered as a timestamp. -/
def find_last_others_touch (commits : List CommitInfo) : Option String :=
  match commits with
  | [] => none
  | c0 :: _ =>
    (commits.find? fun c => c.author != c0.author).map fun c =>
      isoformat c.committed_at

/-- `KnowledgeSiloOracle.divine` as a function of the file list and the
per-file commit lists (`github.get_code_files` / `get_commits_for_file`
are declared on the port but absent from the source tree; their results
are parameters).  The author set is a `dedup` list, whose length is the
set's cardinality and whose head is `next(iter(authors))`. -/
def divine (now : Nat) (files : List String)
    (commitsFor : String → List CommitInfo) : List HealthSignal :=
  files.flatMap fun path =>
    let commits := commitsFor path
    let authors := (commits.map (·.author)).dedup
    if authors.length = 1 then
      [{ dimension := .knowledge_silos
         severity := 3/5
         confidence := 4/5
         evidence := .silo path (authors.headD "") (find_last_others_touch commits)
         suggested_action := "Pair program or document architecture"
         affected_paths := [path]
         detected_at := now }]
    else []

end KnowledgeSiloOracle

/-- `GuardianAngel._calculate_health_score`. -/
def calculate_health_score (signals : List HealthSignal) : ℚ :=
  if signals.isEmpty then 100
  else max 0 (100 - (signals.map fun s => s.severity * s.confidence * 20).sum)

/-! ## Checkup orchestration

`perform_checkup` iterates its oracle list with no exception handling; an
oracle is modelled by the outcome of its `divine` pass over the run
history (either the signal list it yields or the exception it raises) and
its `prophesy` function.  The history fetch and the intervention pass do
not affect which signals are collected and are omitted. -/

/-- One oracle's behaviour during one checkup. -/
structure OracleRun where
  divineRun : Except GuardErr (List HealthSignal)
  prophesyRun : HealthSignal → Except GuardErr (Option Prophecy)

/-- The inner `async for signal in oracle.divine(...)` body: prophesy each
signal, collecting non-`None` prophecies; exceptions propagate. -/
def prophecyLoop (o : OracleRun) :
    List HealthSignal → Except GuardErr (List Prophecy)
  | [] => .ok []
  | s :: rest => do
    let p ← o.prophesyRun s
    let ps ← prophecyLoop o rest
    pure (match p with | some prophecy => prophecy :: ps | none => ps)

/-- The oracle loop of `perform_checkup`: signals and prophecies of every
oracle in registration order; any exception aborts the whole loop. -/
def collectSignals :
    List OracleRun → Except GuardErr (List HealthSignal × List Prophecy)
  | [] => .ok ([], [])
  | o :: rest => do
    let sigs ← o.divineRun
    let ps ← prophecyLoop o sigs
    let more ← collectSignals rest
    pure (sigs ++ more.1, ps ++ more.2)

/-- `GuardianAngel.perform_checkup`: run every oracle, then assemble the
scored `RepositoryHealth`. -/
def perform_checkup (owner repo : String) (oracles : List OracleRun) :
    Except GuardErr RepositoryHealth := do
  let collected ← collectSignals oracles
  pure { owner := owner
         repo := repo
         overall_score := calculate_health_score collected.1
         signals := collected.1
         prophecies := collected.2
         default_branch := "main" }

/-! ## Concrete instances used by individual claims -/

/-- A signal with severity 1.0 and confidence 1.0 (claim C6's unit signal). -/
def c6sig : HealthSignal :=
  { dimension := .flakiness
    severity := 1
    confidence := 1
    evidence := .flaky "t" (1/2) 10
    suggested_action := ""
    affected_paths := []
    detected_at := 0 }

/-- Ten outcomes with exactly one pass: success rate exactly 0.1. -/
def c5tenOutcomes : List Outcome :=
  [⟨true, "f.py"⟩, ⟨false, "f.py"⟩, ⟨false, "f.py"⟩, ⟨false, "f.py"⟩,
   ⟨false, "f.py"⟩, ⟨false, "f.py"⟩, ⟨false, "f.py"⟩, ⟨false, "f.py"⟩,
   ⟨false, "f.py"⟩, ⟨false, "f.py"⟩]

/-- Six outcomes, three passes: success rate exactly 0.5. -/
def c5balanced : List Outcome :=
  [⟨true, "f.py"⟩, ⟨false, "f.py"⟩, ⟨true, "f.py"⟩,
   ⟨false, "f.py"⟩, ⟨true, "f.py"⟩, ⟨false, "f.py"⟩]

/-- The signal `FlakinessOracle.divine` emits over `c5balanced`. -/
def c5sig : HealthSignal :=
  { dimension := .flakiness
    severity := 1
    confidence := 3/10
    evidence := .flaky "t" (1/2) 6
    suggested_action := "Quarantine or fix test"
    affected_paths := ["f.py"]
    detected_at := 0 }

/-- A failure-free port environment: no injected port failures. -/
def noFail : PortOp → Bool := fun _ => false

/-- A remote run that concluded successfully. -/
def c1run : RunData :=
  { name := "build", head_branch := "main", head_sha := "abcdef1234567890"
    conclusion := .success, event := "push", html_url := "u"
    created_at := 0, updated_at := 0, logs_url := none }

def c1payload : Payload := ⟨"o", "r", 1, "completed"⟩

/-- Fresh world whose only remote run is the successful `c1run`. -/
def c1world : World :=
  { github := { runsTable := [(⟨"o", "r", 1⟩, c1run)], issues := [], nextNumber := 1 }
    store := ⟨[], []⟩
    now := 0
    failures := noFail }

/-- A world whose GitHub side knows no runs: fetching raises. -/
def c2world : World :=
  { github := { runsTable := [], issues := [], nextNumber := 1 }
    store := ⟨[], []⟩
    now := 0
    failures := noFail }

def c2payload : Payload := ⟨"o", "r", 5, "completed"⟩

/-- A remote run that failed, with a logs URL present. -/
def c10run : RunData :=
  { name := "lint", head_branch := "main", head_sha := "abcdef1234567890"
    conclusion := .failure, event := "push", html_url := "u"
    created_at := 0, updated_at := 0, logs_url := some "L" }

def c10payload : Payload := ⟨"o", "r", 2, "completed"⟩

/-- Fresh world whose only remote run is the failing `c10run`. -/
def c10world : World :=
  { github := { runsTable := [(⟨"o", "r", 2⟩, c10run)], issues := [], nextNumber := 1 }
    store := ⟨[], []⟩
    now := 0
    failures := noFail }

/-- The configuration of the module entry point: autofix enabled. -/
def c10config : GuardianConfig := { autofix_enabled := true }

/-- The `WorkflowRun` the handler builds for `c10payload`. -/
def c10wr : WorkflowRun :=
  { id := ⟨"o", "r", 2⟩, name := "lint", head_branch := "main"
    head_sha := "abcdef1234567890", conclusion := .failure, event := "push"
    html_url := "u", created_at := 0, updated_at := 0, logs_url := some "L" }

/-- The world after the triage pipeline ran once on `c10world`. -/
def c10world2 : World :=
  mark_processed
    (link_fingerprint_to_issue
      { c10world with
        github := githubPostIssue c10world.github "o" "r"
          (generate_issue c10wr c10wr.fingerprint.hash c10config 0) }
      "o" "r" c10wr.fingerprint.hash 1)
    (operationId c10payload) (.triaged 1 false)

def c4fp : FailureFingerprint := ⟨"build", .failure, "push", none⟩

/-- A closed issue whose title carries the fingerprint hash of `c4fp`. -/
def c4closed : GhIssue :=
  { owner := "o", repo := "r", number := 7
    title := FailureFingerprint.hash c4fp
    body := "", labels := [], state := .isClosed }

/-- A GitHub state whose only issue is the closed `c4closed`. -/
def c4gh : GitHubState := { runsTable := [], issues := [c4closed], nextNumber := 8 }

def c4issue : TriageIssue :=
  { fingerprint_hash := "h", title := "t", body := "b", labels := []
    metadata_run_id := "", metadata_sha := "" }

def c8secret : List Nat := strBytes "topsecret"

/-- The raw body bytes of a `workflow_run.completed` delivery. -/
def c8body : List Nat := strBytes "\x7b\"action\": \"completed\"\x7d"

def c8payload : Payload := ⟨"o", "r", 9, "completed"⟩

/-- A correctly signed `workflow_run.completed` request. -/
def c8req : WebhookRequest :=
  { rawBody := c8body
    x_github_event := "workflow_run"
    x_hub_signature_256 := some ("sha256=" ++ hmacSha256Hex c8secret c8body)
    payload := c8payload }

/-- The same signed request delivered with an unrelated event header. -/
def c8reqPing : WebhookRequest := { c8req with x_github_event := "ping" }

/-- An oracle whose `divine` raises (e.g. a port call inside it fails). -/
def c7failing : OracleRun :=
  ⟨.error (.oracleFailure "FlakinessOracle"), fun _ => .ok none⟩

/-- A healthy oracle yielding one severity-1/confidence-1 signal. -/
def c7healthy : OracleRun := ⟨.ok [c6sig], fun _ => .ok none⟩

/-! ## Theorems -/

/-- Validation against the standard SHA-256 test vectors (empty string, "abc"). -/
theorem sha256_test_vectors :
    sha256hex [] = "e3b0c44298fc1c149afbf4c8996fb92427ae41e4649b934ca495991b7852b855" ∧
    sha256hex (strBytes "abc") =
      "ba7816bf8f01cfea414140de5dae2223b00361a396177a9cb410ff61f20015ad" := by
  constructor <;> decide

/-- Validation against the RFC 4231-style HMAC-SHA256 test vector. -/
theorem hmac_test_vector :
    hmacSha256Hex (strBytes "key")
        (strBytes "The quick brown fox jumps over the lazy dog") =
      "f7bc83f430538424b13298e6aa6fb143ef4d59a14946175997479dbc2d1a3cd8" := by
  decide

/-! ### String cancellation helpers for the fingerprint-content analysis -/

theorem strAppendCancelRight {a b s : String} (h : a ++ s = b ++ s) : a = b := by
  apply String.ext
  have hd := congrArg String.data h
  simp only [String.data_append] at hd
  exact List.append_cancel_right hd

theorem strAppendCancelLeft {s a b : String} (h : s ++ a = s ++ b) : a = b := by
  apply String.ext
  have hd := congrArg String.data h
  simp only [String.data_append] at hd
  exact List.append_cancel_left hd

/-- `Conclusion.value` is injective (checked over all 49 pairs). -/
theorem Conclusion.value_inj {c1 c2 : Conclusion} (h : c1.value = c2.value) :
    c1 = c2 := by
  revert h
  cases c1 <;> cases c2 <;> decide

/-- Content equality forces hash equality (the hash is a pure function of the
serialized content). -/
theorem FailureFingerprint.hash_congr {fp1 fp2 : FailureFingerprint}
    (h : fp1.content = fp2.content) : fp1.hash = fp2.hash := by
  unfold FailureFingerprint.hash
  rw [h]

/-- Changing only the workflow name changes the hashed content. -/
theorem content_workflow_inj {w1 w2 : String} {c : Conclusion} {e : String}
    {m : Option String}
    (h : FailureFingerprint.content ⟨w1, c, e, m⟩ =
         FailureFingerprint.content ⟨w2, c, e, m⟩) : w1 = w2 := by
  unfold FailureFingerprint.content at h
  simp only [String.append_assoc] at h
  exact strAppendCancelRight (s := ":" ++ (c.value ++ (":" ++ (e ++ (":" ++ m.getD ""))))) h

/-- Changing only the conclusion changes the hashed content. -/
theorem content_conclusion_inj {w : String} {c1 c2 : Conclusion} {e : String}
    {m : Option String}
    (h : FailureFingerprint.content ⟨w, c1, e, m⟩ =
         FailureFingerprint.content ⟨w, c2, e, m⟩) : c1 = c2 := by
  unfold FailureFingerprint.content at h
  simp only [String.append_assoc] at h
  have h1 := strAppendCancelLeft (s := w) h
  have h2 := strAppendCancelLeft (s := ":") h1
  have h3 := strAppendCancelRight (s := ":" ++ (e ++ (":" ++ m.getD ""))) h2
  exact Conclusion.value_inj h3

/-- Changing only the event changes the hashed content. -/
theorem content_event_inj {w : String} {c : Conclusion} {e1 e2 : String}
    {m : Option String}
    (h : FailureFingerprint.content ⟨w, c, e1, m⟩ =
         FailureFingerprint.content ⟨w, c, e2, m⟩) : e1 = e2 := by
  unfold FailureFingerprint.content at h
  simp only [String.append_assoc] at h
  have h1 := strAppendCancelLeft (s := w) h
  have h2 := strAppendCancelLeft (s := ":") h1
  have h3 := strAppendCancelLeft (s := c.value) h2
  have h4 := strAppendCancelLeft (s := ":") h3
  exact strAppendCancelRight (s := ":" ++ m.getD "") h4

/-- Changing only the matrix key changes the hashed content exactly when the
effective value `matrix_key or ''` changes. -/
theorem content_matrix_inj {w : String} {c : Conclusion} {e : String}
    {m1 m2 : Option String}
    (h : FailureFingerprint.content ⟨w, c, e, m1⟩ =
         FailureFingerprint.content ⟨w, c, e, m2⟩) : m1.getD "" = m2.getD "" := by
  unfold FailureFingerprint.content at h
  simp only [String.append_assoc] at h
  have h1 := strAppendCancelLeft (s := w) h
  have h2 := strAppendCancelLeft (s := ":") h1
  have h3 := strAppendCancelLeft (s := c.value) h2
  have h4 := strAppendCancelLeft (s := ":") h3
  have h5 := strAppendCancelLeft (s := e) h4
  exact strAppendCancelLeft (s := ":") h5

/-- Claim C3 counterexample: the fingerprints `(build, failure, push, None)`
and `(build, failure, push, "")` differ in exactly one field (the matrix
key) yet hash identically, because `matrix_key or ''` erases the
difference before hashing. -/
theorem C3_matrix_key_collision :
    (⟨"build", .failure, "push", none⟩ : FailureFingerprint) ≠
      ⟨"build", .failure, "push", some ""⟩ ∧
    FailureFingerprint.hash ⟨"build", .failure, "push", none⟩ =
      FailureFingerprint.hash ⟨"build", .failure, "push", some ""⟩ := by
  exact ⟨by decide, FailureFingerprint.hash_congr (by decide)⟩

/-- Claim C3 (amended): fingerprint hashing is a deterministic pure function
of the 4-tuple; changing the workflow name, the conclusion, or the event
alone always changes the hashed content string (and content equality is
what determines hash equality); changing the matrix key alone changes the
content exactly when its effective value `matrix_key or ''` changes — in
particular `None` and `""` yield the same content and hence the same
hash. -/
theorem C3_fingerprint_hash_properties :
    (∀ fp1 fp2 : FailureFingerprint, fp1 = fp2 → fp1.hash = fp2.hash) ∧
    (∀ (w1 w2 : String) (c : Conclusion) (e : String) (m : Option String),
      w1 ≠ w2 →
      FailureFingerprint.content ⟨w1, c, e, m⟩ ≠
        FailureFingerprint.content ⟨w2, c, e, m⟩) ∧
    (∀ (w : String) (c1 c2 : Conclusion) (e : String) (m : Option String),
      c1 ≠ c2 →
      FailureFingerprint.content ⟨w, c1, e, m⟩ ≠
        FailureFingerprint.content ⟨w, c2, e, m⟩) ∧
    (∀ (w : String) (c : Conclusion) (e1 e2 : String) (m : Option String),
      e1 ≠ e2 →
      FailureFingerprint.content ⟨w, c, e1, m⟩ ≠
        FailureFingerprint.content ⟨w, c, e2, m⟩) ∧
    (∀ (w : String) (c : Conclusion) (e : String) (m1 m2 : Option String),
      m1.getD "" ≠ m2.getD "" →
      FailureFingerprint.content ⟨w, c, e, m1⟩ ≠
        FailureFingerprint.content ⟨w, c, e, m2⟩) ∧
    (∀ (w : String) (c : Conclusion) (e : String) (m1 m2 : Option String),
      m1.getD "" = m2.getD "" →
      FailureFingerprint.hash ⟨w, c, e, m1⟩ =
        FailureFingerprint.hash ⟨w, c, e, m2⟩) := by
  refine ⟨fun fp1 fp2 h => by rw [h], ?_, ?_, ?_, ?_, ?_⟩
  · exact fun w1 w2 c e m hne h => hne (content_workflow_inj h)
  · exact fun w c1 c2 e m hne h => hne (content_conclusion_inj h)
  · exact fun w c e1 e2 m hne h => hne (content_event_inj h)
  · exact fun w c e m1 m2 hne h => hne (content_matrix_inj h)
  · intro w c e m1 m2 hEq
    apply FailureFingerprint.hash_congr
    simp only [FailureFingerprint.content, hEq]

/-- Witness for C3: the field-change properties applied at concrete
fingerprints. -/
theorem C3_fingerprint_hash_properties_witness :
    FailureFingerprint.hash ⟨"a", .failure, "push", none⟩ =
      FailureFingerprint.hash ⟨"a", .failure, "push", none⟩ ∧
    FailureFingerprint.content ⟨"a", .failure, "push", none⟩ ≠
      FailureFingerprint.content ⟨"b", .failure, "push", none⟩ ∧
    FailureFingerprint.content ⟨"a", .failure, "push", none⟩ ≠
      FailureFingerprint.content ⟨"a", .success, "push", none⟩ ∧
    FailureFingerprint.content ⟨"a", .failure, "push", none⟩ ≠
      FailureFingerprint.content ⟨"a", .failure, "pull_request", none⟩ ∧
    FailureFingerprint.content ⟨"a", .failure, "push", some "x"⟩ ≠
      FailureFingerprint.content ⟨"a", .failure, "push", some "y"⟩ ∧
    FailureFingerprint.hash ⟨"a", .failure, "push", none⟩ =
      FailureFingerprint.hash ⟨"a", .failure, "push", some ""⟩ :=
  ⟨C3_fingerprint_hash_properties.1 ⟨"a", .failure, "push", none⟩
      ⟨"a", .failure, "push", none⟩ rfl,
   C3_fingerprint_hash_properties.2.1 "a" "b" .failure "push" none (by decide),
   C3_fingerprint_hash_properties.2.2.1 "a" .failure .success "push" none (by decide),
   C3_fingerprint_hash_properties.2.2.2.1 "a" .failure "push" "pull_request" none
      (by decide),
   C3_fingerprint_hash_properties.2.2.2.2.1 "a" .failure "push" (some "x")
      (some "y") (by decide),
   C3_fingerprint_hash_properties.2.2.2.2.2 "a" .failure "push" none (some "")
      (by decide)⟩

/-- Claim C6: the health score is `max(0, 100 − Σ severity·confidence·20)`;
an empty signal list scores 100, one severity-1.0/confidence-1.0 signal
scores 80, five such signals score 0, and the score is never negative. -/
theorem C6_health_score :
    (∀ signals : List HealthSignal,
      calculate_health_score signals =
        max 0 (100 - (signals.map fun s => s.severity * s.confidence * 20).sum)) ∧
    calculate_health_score [] = 100 ∧
    calculate_health_score [c6sig] = 80 ∧
    calculate_health_score (List.replicate 5 c6sig) = 0 ∧
    (∀ signals : List HealthSignal, 0 ≤ calculate_health_score signals) := by
  refine ⟨?_, by norm_num [calculate_health_score], ?_, ?_, ?_⟩
  · intro signals
    cases signals with
    | nil => norm_num [calculate_health_score]
    | cons s rest => simp [calculate_health_score]
  · norm_num [calculate_health_score, c6sig]
  · norm_num [calculate_health_score, c6sig, List.replicate]
  · intro signals
    cases signals with
    | nil => norm_num [calculate_health_score]
    | cons s rest => simp [calculate_health_score]

/-- The success rate of `c5tenOutcomes` is exactly 0.1. -/
theorem c5ten_rate : success_rate c5tenOutcomes = 1/10 := by
  norm_num [success_rate, c5tenOutcomes, List.countP_cons, List.countP_nil]

/-- The sample variance of the 0/1 outcome list of `c5tenOutcomes` is
exactly 0.1 (`n·s·(1−s)/(n−1)` = 10·0.09/9). -/
theorem c5ten_var :
    sampleVariance (c5tenOutcomes.map fun o => if o.passed then (1 : ℚ) else 0) =
      1/10 := by
  norm_num [sampleVariance, c5tenOutcomes]

/-- Claim C5 counterexample: the severity formula yields 0.2 at success
rate 0.1 (and 0.9), not 0.0 as claimed — and at success rate exactly 0.1
(ten outcomes, one pass) the oracle emits no signal at all: the trigger
`0.1 < rate < 0.9` fails and the sample variance is exactly 0.1, not
above it. -/
theorem C5_severity_at_tenth_is_fifth :
    flakSeverity (1/10) = 1/5 ∧ flakSeverity (1/10) ≠ 0 ∧
    flakSeverity (9/10) = 1/5 ∧
    FlakinessOracle.divine 0 [("t", c5tenOutcomes)] = [] := by
  refine ⟨by norm_num [flakSeverity, abs], by norm_num [flakSeverity, abs],
          by norm_num [flakSeverity, abs], ?_⟩
  unfold FlakinessOracle.divine
  simp only [List.flatMap_cons, List.flatMap_nil, List.append_nil]
  rw [if_neg (by norm_num [c5tenOutcomes])]
  have hcond : ¬((1/10 < success_rate c5tenOutcomes ∧
      success_rate c5tenOutcomes < 9/10) ∨
      1/10 < (if 1 < c5tenOutcomes.length then
        sampleVariance (c5tenOutcomes.map fun o => if o.passed then (1 : ℚ) else 0)
      else 0)) := by
    rw [if_pos (by norm_num [c5tenOutcomes]), c5ten_rate, c5ten_var]
    norm_num
  rw [if_neg hcond]

/-- Claim C5 (amended): every flakiness signal is emitted with severity
`1 − |s − 0.5|·2` where `s` is the success rate recorded in its evidence;
that severity always lies in [0, 1]; `s = 0.5` gives severity 1.0; the
formula gives 0.2 — not 0.0 — at `s = 0.1` and `s = 0.9`, and gives 0.0
exactly at the extremes `s = 0` and `s = 1`. -/
theorem C5_flakiness_severity :
    (∀ (now : Nat) (test_results : List (String × List Outcome))
       (sig : HealthSignal), sig ∈ FlakinessOracle.divine now test_results →
      ∃ name s n, sig.evidence = .flaky name s n ∧
        sig.severity = flakSeverity s ∧ 0 ≤ s ∧ s ≤ 1 ∧
        0 ≤ sig.severity ∧ sig.severity ≤ 1) ∧
    flakSeverity (1/2) = 1 ∧ flakSeverity (1/10) = 1/5 ∧
    flakSeverity (9/10) = 1/5 ∧ flakSeverity 0 = 0 ∧ flakSeverity 1 = 0 := by
  refine ⟨?_, by norm_num [flakSeverity, abs], by norm_num [flakSeverity, abs],
          by norm_num [flakSeverity, abs], by norm_num [flakSeverity, abs],
          by norm_num [flakSeverity, abs]⟩
  intro now test_results sig hmem
  unfold FlakinessOracle.divine at hmem
  rw [List.mem_flatMap] at hmem
  obtain ⟨tr, _, hin⟩ := hmem
  dsimp only at hin
  by_cases hlen : tr.2.length < 5
  · rw [if_pos hlen] at hin
    exact absurd hin (List.not_mem_nil sig)
  · rw [if_neg hlen] at hin
    by_cases hcond : (1/10 < success_rate tr.2 ∧ success_rate tr.2 < 9/10) ∨
        1/10 < (if 1 < tr.2.length then
          sampleVariance (tr.2.map fun o => if o.passed then (1 : ℚ) else 0)
        else 0)
    · rw [if_pos hcond] at hin
      rw [List.mem_singleton] at hin
      subst hin
      refine ⟨tr.1, success_rate tr.2, tr.2.length, rfl, rfl, ?_, ?_, ?_, ?_⟩
      · exact div_nonneg (Nat.cast_nonneg _) (Nat.cast_nonneg _)
      · have hle : (tr.2.countP (·.passed) : ℚ) ≤ (tr.2.length : ℚ) := by
          exact_mod_cast List.countP_le_length _
        have hpos : (0 : ℚ) < (tr.2.length : ℚ) := by
          have : 5 ≤ tr.2.length := Nat.le_of_not_lt hlen
          exact_mod_cast Nat.lt_of_lt_of_le (by norm_num) this
        exact div_le_one_of_le₀ hle (le_of_lt hpos)
      · have h01 : 0 ≤ success_rate tr.2 :=
          div_nonneg (Nat.cast_nonneg _) (Nat.cast_nonneg _)
        have h02 : success_rate tr.2 ≤ 1 := by
          have hle : (tr.2.countP (·.passed) : ℚ) ≤ (tr.2.length : ℚ) := by
            exact_mod_cast List.countP_le_length _
          have hpos : (0 : ℚ) < (tr.2.length : ℚ) := by
            have : 5 ≤ tr.2.length := Nat.le_of_not_lt hlen
            exact_mod_cast Nat.lt_of_lt_of_le (by norm_num) this
          exact div_le_one_of_le₀ hle (le_of_lt hpos)
        have habs : |success_rate tr.2 - 1/2| ≤ 1/2 :=
          abs_le.mpr ⟨by linarith, by linarith⟩
        show (0 : ℚ) ≤ flakSeverity (success_rate tr.2)
        unfold flakSeverity
        linarith
      · have habs : (0 : ℚ) ≤ |success_rate tr.2 - 1/2| := abs_nonneg _
        show flakSeverity (success_rate tr.2) ≤ 1
        unfold flakSeverity
        linarith
    · rw [if_neg hcond] at hin
      exact absurd hin (List.not_mem_nil sig)

/-- The success rate of `c5balanced` is exactly 0.5. -/
theorem c5balanced_rate : success_rate c5balanced = 1/2 := by
  norm_num [success_rate, c5balanced, List.countP_cons, List.countP_nil]

/-- Over `c5balanced` the oracle emits exactly the signal `c5sig`. -/
theorem c5divine_eq : FlakinessOracle.divine 0 [("t", c5balanced)] = [c5sig] := by
  unfold FlakinessOracle.divine
  simp only [List.flatMap_cons, List.flatMap_nil, List.append_nil]
  rw [if_neg (by norm_num [c5balanced])]
  rw [if_pos (Or.inl ⟨by rw [c5balanced_rate]; norm_num,
                      by rw [c5balanced_rate]; norm_num⟩)]
  rw [c5balanced_rate]
  have h1 : flakSeverity (1/2) = 1 := by norm_num [flakSeverity, abs]
  have h2 : ((c5balanced.length : ℚ) / 20 ⊓ 1) = 3/10 := by norm_num [c5balanced]
  have h3 : c5balanced.length = 6 := by norm_num [c5balanced]
  rw [h1, h2, h3]
  rfl

/-- Witness for C5: the amended property applied to the signal emitted over
six outcomes with success rate exactly 0.5. -/
theorem C5_flakiness_severity_witness :
    ∃ name s n, c5sig.evidence = .flaky name s n ∧
      c5sig.severity = flakSeverity s ∧ 0 ≤ s ∧ s ≤ 1 ∧
      0 ≤ c5sig.severity ∧ c5sig.severity ≤ 1 :=
  C5_flakiness_severity.1 0 [("t", c5balanced)] c5sig
    (by rw [c5divine_eq]; exact List.mem_singleton.mpr rfl)

/-- Claim C7: `perform_checkup` has no per-oracle exception handling — an
error raised while the first oracle's `divine` runs propagates out of the
checkup, the remaining oracle is never consulted and no `RepositoryHealth`
is produced, even though the healthy oracle alone would have yielded a
scored snapshot. -/
theorem C7_checkup_aborts_on_oracle_failure :
    perform_checkup "o" "r" [c7failing, c7healthy] =
      .error (.oracleFailure "FlakinessOracle") ∧
    perform_checkup "o" "r" [c7healthy] =
      .ok { owner := "o", repo := "r", overall_score := 80,
            signals := [c6sig], prophecies := [], default_branch := "main" } := by
  constructor
  · rfl
  · simp only [perform_checkup, collectSignals, prophecyLoop, c7healthy,
      calculate_health_score, bind, Except.bind, c6sig, List.append_nil,
      List.isEmpty_cons, Bool.false_eq_true, if_false, List.map_cons,
      List.map_nil, List.sum_cons, List.sum_nil, pure, Except.pure,
      Except.ok.injEq, RepositoryHealth.mk.injEq, List.cons_append]
    norm_num

/-- Claim C9: every signal emitted by `KnowledgeSiloOracle.divine` carries
`last_others_touch = None`: a signal is only emitted when all fetched
commits share one author, in which case `_find_last_others_touch` finds no
commit by a different author. -/
theorem C9_silo_signal_has_no_others_touch :
    ∀ (now : Nat) (files : List String) (commitsFor : String → List CommitInfo)
      (sig : HealthSignal), sig ∈ KnowledgeSiloOracle.divine now files commitsFor →
      ∃ path author, sig.evidence = .silo path author none := by
  intro now files commitsFor sig hmem
  unfold KnowledgeSiloOracle.divine at hmem
  rw [List.mem_flatMap] at hmem
  obtain ⟨path, _, hin⟩ := hmem
  dsimp only at hin
  by_cases hlen : ((commitsFor path).map (·.author)).dedup.length = 1
  · rw [if_pos hlen] at hin
    rw [List.mem_singleton] at hin
    subst hin
    refine ⟨path, ((commitsFor path).map (·.author)).dedup.headD "", ?_⟩
    have hnone : KnowledgeSiloOracle.find_last_others_touch (commitsFor path) = none := by
      obtain ⟨a, ha⟩ := List.length_eq_one.mp hlen
      have hall : ∀ c ∈ commitsFor path, c.author = a := by
        intro c hc
        have : c.author ∈ ((commitsFor path).map (·.author)).dedup :=
          List.mem_dedup.mpr (List.mem_map_of_mem _ hc)
        rw [ha] at this
        exact List.mem_singleton.mp this
      cases hcs : commitsFor path with
      | nil => rfl
      | cons c0 rest =>
        unfold KnowledgeSiloOracle.find_last_others_touch
        have hfind : (c0 :: rest).find? (fun c => c.author != c0.author) = none := by
          rw [List.find?_eq_none]
          intro c hc
          have hc0 : c0.author = a := hall c0 (by rw [hcs]; exact List.mem_cons_self c0 rest)
          have hca : c.author = a := hall c (by rw [hcs]; exact hc)
          simp [hca, hc0]
        dsimp only
        rw [hfind]
        rfl
    rw [hnone]
  · rw [if_neg hlen] at hin
    exact absurd hin (List.not_mem_nil sig)

/-- Over a file whose two commits are both by "alice", the silo oracle
emits exactly the expected signal. -/
theorem c9divine_eq :
    KnowledgeSiloOracle.divine 0 ["m.py"]
        (fun _ => [⟨"alice", 5⟩, ⟨"alice", 3⟩]) =
      [{ dimension := .knowledge_silos
         severity := 3/5
         confidence := 4/5
         evidence := .silo "m.py" "alice" none
         suggested_action := "Pair program or document architecture"
         affected_paths := ["m.py"]
         detected_at := 0 }] := by
  unfold KnowledgeSiloOracle.divine
  simp only [List.flatMap_cons, List.flatMap_nil, List.append_nil]
  rw [if_pos (by simp [List.dedup_cons_of_mem])]
  simp [KnowledgeSiloOracle.find_last_others_touch, List.dedup_cons_of_mem]

/-- Witness for C9: the property applied to a file all of whose commits
share the author "alice". -/
theorem C9_silo_signal_witness :
    ∃ path author,
      (Evidence.silo "m.py" "alice" none) = .silo path author none ∧
      ({ dimension := .knowledge_silos
         severity := 3/5
         confidence := 4/5
         evidence := .silo "m.py" "alice" none
         suggested_action := "Pair program or document architecture"
         affected_paths := ["m.py"]
         detected_at := 0 } : HealthSignal) ∈
        KnowledgeSiloOracle.divine 0 ["m.py"]
          (fun _ => [⟨"alice", 5⟩, ⟨"alice", 3⟩]) := by
  obtain ⟨path, author, h⟩ :=
    C9_silo_signal_has_no_others_touch 0 ["m.py"]
      (fun _ => [⟨"alice", 5⟩, ⟨"alice", 3⟩])
      { dimension := .knowledge_silos
        severity := 3/5
        confidence := 4/5
        evidence := .silo "m.py" "alice" none
        suggested_action := "Pair program or document architecture"
        affected_paths := ["m.py"]
        detected_at := 0 } (by rw [c9divine_eq]; exact List.mem_singleton.mpr rfl)
  exact ⟨path, author, h, by rw [c9divine_eq]; exact List.mem_singleton.mpr rfl⟩

/-! ### Handler case analysis -/

theorem alookup_cons_self {α : Type} (k : String) (v : α) (l : List (String × α)) :
    alookup ((k, v) :: l) k = some v := by
  simp [alookup]

theorem is_processed_mark_processed (w : World) (opId : String) (r : ProcResult) :
    is_processed (mark_processed w opId r) opId = true := by
  simp [is_processed, mark_processed, alookup]

/-- The two successful outcomes of `create_or_update_issue`: PATCH of the
found issue, or POST of a new one. -/
theorem create_or_update_issue_cases {fail : PortOp → Bool} {gh : GitHubState}
    {owner repo : String} {fp : FailureFingerprint} {issue : TriageIssue}
    {gh2 : GitHubState} {n : Nat} {tr : List PortOp}
    (h : create_or_update_issue fail gh owner repo fp issue = .ok (gh2, n, tr)) :
    (∃ existing, find_existing_issue gh owner repo fp = some existing ∧
       gh2 = githubPatchIssue gh existing.number issue ∧ n = existing.number ∧
       tr = [.searchIssues, .patchIssue]) ∨
    (find_existing_issue gh owner repo fp = none ∧
       gh2 = githubPostIssue gh owner repo issue ∧ n = gh.nextNumber ∧
       tr = [.searchIssues, .postIssue]) := by
  unfold create_or_update_issue at h
  split at h
  · simp at h
  · split at h
    next existing heq =>
      split at h
      · simp at h
      · simp only [Except.ok.injEq, Prod.mk.injEq] at h
        obtain ⟨h1, h2, h3⟩ := h
        exact Or.inl ⟨existing, heq, h1.symm, h2.symm, h3.symm⟩
    next heq =>
      split at h
      · simp at h
      · simp only [Except.ok.injEq, Prod.mk.injEq] at h
        obtain ⟨h1, h2, h3⟩ := h
        exact Or.inr ⟨heq, h1.symm, h2.symm, h3.symm⟩

/-- Complete characterization of the handler's successful returns: the
dedup short-circuit, the success path, and the triage path. -/
theorem handle_ok_cases {config : GuardianConfig} {strategies : List Strategy}
    {w : World} {p : Payload} {w2 : World} {trace : List PortOp}
    (h : handle_workflow_run_completed config strategies w p = .ok w2 trace) :
    w2.failures = w.failures ∧ w.failures .isProcessedQ = false ∧
    is_processed w2 (operationId p) = true ∧
    ((is_processed w (operationId p) = true ∧ w2 = w ∧ trace = [.isProcessedQ]) ∨
     (is_processed w (operationId p) = false ∧
      ∃ run, get_workflow_run w.github p.runId = some run ∧
        run.is_failure = false ∧
        w2 = mark_processed w (operationId p) .successNoAction ∧
        trace = [.isProcessedQ, .getRunQ, .markProcessed]) ∨
     (is_processed w (operationId p) = false ∧
      ∃ run gh2 n ghTr,
        get_workflow_run w.github p.runId = some run ∧
        run.is_failure = true ∧
        create_or_update_issue w.failures w.github p.owner p.repo run.fingerprint
          (generate_issue run run.fingerprint.hash config w.now) =
          .ok (gh2, n, ghTr) ∧
        w2 = mark_processed
          (link_fingerprint_to_issue { w with github := gh2 } p.owner p.repo
            run.fingerprint.hash n) (operationId p)
          (.triaged n (if config.autofix_enabled then
              attempt_remediation config strategies run else none).isSome) ∧
        trace = [.isProcessedQ, .getRunQ] ++ ghTr ++ [.linkFp, .markProcessed])) := by
  unfold handle_workflow_run_completed at h
  dsimp only at h
  split at h
  · simp at h
  next hfail1 =>
    split at h
    next hproc =>
      injection h with h1 h2
      subst h1; subst h2
      exact ⟨rfl, Bool.not_eq_true _ ▸ eq_false_of_ne_true hfail1,
             hproc, Or.inl ⟨hproc, rfl, rfl⟩⟩
    next hproc =>
      have hprocf : is_processed w (operationId p) = false :=
        eq_false_of_ne_true hproc
      split at h
      · simp at h
      · split at h
        · simp at h
        next run hget =>
          split at h
          next hnf =>
            split at h
            · simp at h
            · injection h with h1 h2
              subst h1; subst h2
              refine ⟨rfl, eq_false_of_ne_true hfail1,
                      is_processed_mark_processed w (operationId p) _, ?_⟩
              exact Or.inr (Or.inl ⟨hprocf, run, hget,
                (by simpa using hnf), rfl, rfl⟩)
          next hnf =>
            have hisf : run.is_failure = true := by
              revert hnf
              cases run.is_failure <;> simp
            split at h
            · simp at h
            next gh2 n ghTr hco =>
              split at h
              · simp at h
              · split at h
                · simp at h
                · injection h with h1 h2
                  subst h1; subst h2
                  refine ⟨rfl, eq_false_of_ne_true hfail1,
                          is_processed_mark_processed _ (operationId p) _, ?_⟩
                  exact Or.inr (Or.inr ⟨hprocf, run, gh2, n, ghTr, hget, hisf,
                    hco, rfl, rfl⟩)

/-- Every failing return of the handler: the store's processed ledger is
untouched at the operation id and no successful `mark_processed` is in the
trace. -/
theorem handle_err_cases {config : GuardianConfig} {strategies : List Strategy}
    {w : World} {p : Payload} {e : GuardErr} {w2 : World} {trace : List PortOp}
    (h : handle_workflow_run_completed config strategies w p = .err e w2 trace) :
    PortOp.markProcessed ∉ trace ∧
    w2.store.ops = w.store.ops := by
  unfold handle_workflow_run_completed at h
  dsimp only at h
  split at h
  · injection h with h1 h2 h3
    subst h2; subst h3
    exact ⟨by simp, rfl⟩
  · split at h
    · simp at h
    · split at h
      · injection h with h1 h2 h3
        subst h2; subst h3
        exact ⟨by simp, rfl⟩
      · split at h
        · injection h with h1 h2 h3
          subst h2; subst h3
          exact ⟨by simp, rfl⟩
        next run hget =>
          split at h
          · split at h
            · injection h with h1 h2 h3
              subst h2; subst h3
              exact ⟨by simp, rfl⟩
            · simp at h
          · split at h
            next e2 hco =>
              injection h with h1 h2 h3
              subst h2; subst h3
              exact ⟨by simp, rfl⟩
            next gh2 n ghTr hco =>
              have hghTr := create_or_update_issue_cases hco
              split at h
              · injection h with h1 h2 h3
                subst h2; subst h3
                refine ⟨?_, rfl⟩
                rcases hghTr with ⟨_, _, _, _, htr⟩ | ⟨_, _, _, htr⟩ <;>
                  subst htr <;> decide
              · split at h
                · injection h with h1 h2 h3
                  subst h2; subst h3
                  refine ⟨?_, rfl⟩
                  rcases hghTr with ⟨_, _, _, _, htr⟩ | ⟨_, _, _, htr⟩ <;>
                    subst htr <;> decide
                · simp at h

theorem alookup_mark_processed (w : World) (opId : String) (r : ProcResult) :
    alookup (mark_processed w opId r).store.ops ("op:" ++ opId) = some r := by
  simp [mark_processed, alookup]

/-- Claim C2: any GitHub-port or StateStore exception inside
`handle_workflow_run_completed` propagates out of the handler, no
successful `mark_processed` appears in the trace, and the
processed-operation ledger is untouched at that operation id, so a retried
delivery re-attempts the full pipeline. -/
theorem C2_error_atomicity :
    ∀ (config : GuardianConfig) (strategies : List Strategy) (w : World)
      (p : Payload) (e : GuardErr) (w2 : World) (trace : List PortOp),
      handle_workflow_run_completed config strategies w p = .err e w2 trace →
      PortOp.markProcessed ∉ trace ∧
      w2.store.ops = w.store.ops ∧
      is_processed w2 (operationId p) = is_processed w (operationId p) := by
  intro config strategies w p e w2 trace h
  obtain ⟨h1, h2⟩ := handle_err_cases h
  exact ⟨h1, h2, by simp [is_processed, h2]⟩

/-- Witness for C2: fetching the run raises (unknown run id) on a fresh
world; the error escapes and nothing is marked processed. -/
theorem C2_error_atomicity_witness :
    PortOp.markProcessed ∉ [PortOp.isProcessedQ] ∧
    c2world.store.ops = c2world.store.ops ∧
    is_processed c2world (operationId c2payload) =
      is_processed c2world (operationId c2payload) :=
  C2_error_atomicity {} [Strategy.format] c2world c2payload
    (.portFailure .getRunQ) c2world [.isProcessedQ] rfl

/-- Claim C1 counterexample: for a payload whose run concluded
successfully, the first call completes and the second call is a no-op
after the `is_processed` check — but zero issues are created across the
two calls, not exactly one. -/
theorem C1_counterexample :
    handle_workflow_run_completed {} [Strategy.format] c1world c1payload =
      .ok (mark_processed c1world (operationId c1payload) .successNoAction)
        [.isProcessedQ, .getRunQ, .markProcessed] ∧
    handle_workflow_run_completed {} [Strategy.format]
        (mark_processed c1world (operationId c1payload) .successNoAction)
        c1payload =
      .ok (mark_processed c1world (operationId c1payload) .successNoAction)
        [.isProcessedQ] ∧
    List.count PortOp.postIssue
      (([.isProcessedQ, .getRunQ, .markProcessed] : List PortOp) ++
        [.isProcessedQ]) = 0 := by
  refine ⟨rfl, rfl, by decide⟩

/-- Claim C1 (amended): if the handler completes successfully once, a
second invocation with the same payload returns right after the
`is_processed` check — the world is unchanged and the only port operation
is that read, so no GitHub or StateStore writes happen; across both calls
at most one issue is created, and exactly one when the operation was
fresh, the fetched run is a failure, and no issue carrying the
fingerprint hash already existed. -/
theorem C1_idempotence :
    ∀ (config : GuardianConfig) (strategies : List Strategy) (w : World)
      (p : Payload) (w2 : World) (trace : List PortOp),
      handle_workflow_run_completed config strategies w p = .ok w2 trace →
      (handle_workflow_run_completed config strategies w2 p =
        .ok w2 [.isProcessedQ]) ∧
      trace.count .postIssue ≤ 1 ∧
      (is_processed w (operationId p) = false →
       ∀ run, get_workflow_run w.github p.runId = some run →
        run.is_failure = true →
        find_existing_issue w.github p.owner p.repo run.fingerprint = none →
        trace.count .postIssue = 1) := by
  intro config strategies w p w2 trace h
  obtain ⟨hfail, hiso, hproc2, hcases⟩ := handle_ok_cases h
  refine ⟨?_, ?_, ?_⟩
  · simp [handle_workflow_run_completed, hfail, hiso, hproc2]
  · rcases hcases with ⟨_, _, htr⟩ | ⟨_, run, _, _, _, htr⟩ |
      ⟨_, run, gh2, n, ghTr, _, _, hco, _, htr⟩
    · subst htr; decide
    · subst htr; decide
    · subst htr
      rcases create_or_update_issue_cases hco with ⟨ex, _, _, _, htr2⟩ |
        ⟨_, _, _, htr2⟩ <;> subst htr2 <;> decide
  · intro hfresh run2 hget2 hisf2 hfind
    rcases hcases with ⟨hp, _, _⟩ | ⟨_, run, hget, hnf, _, htr⟩ |
      ⟨_, run, gh2, n, ghTr, hget, hisf, hco, _, htr⟩
    · rw [hp] at hfresh; exact Bool.noConfusion hfresh
    · rw [hget] at hget2
      injection hget2 with hr
      subst hr
      rw [hnf] at hisf2
      exact Bool.noConfusion hisf2
    · rw [hget] at hget2
      injection hget2 with hr
      subst hr
      rcases create_or_update_issue_cases hco with ⟨ex, hfindex, _⟩ |
        ⟨_, _, _, htr2⟩
      · rw [hfind] at hfindex; exact Option.noConfusion hfindex
      · subst htr; subst htr2; decide

/-- Witness for C1: the amended idempotence applied to the completed first
call on the fresh success world. -/
theorem C1_idempotence_witness :
    (handle_workflow_run_completed {} [Strategy.format]
        (mark_processed c1world (operationId c1payload) .successNoAction)
        c1payload =
      .ok (mark_processed c1world (operationId c1payload) .successNoAction)
        [.isProcessedQ]) ∧
    ([.isProcessedQ, .getRunQ, .markProcessed] : List PortOp).count
        .postIssue ≤ 1 := by
  have h := C1_idempotence {} [Strategy.format] c1world c1payload
    (mark_processed c1world (operationId c1payload) .successNoAction)
    [.isProcessedQ, .getRunQ, .markProcessed] rfl
  exact ⟨h.1, h.2.1⟩

/-- Claim C10: with the single strategy registered by `create_app`
(`FormatRemediation`), `_attempt_remediation` returns `None` for every
run — `logs_url` absent short-circuits, and otherwise `logs = ""` makes
`FormatRemediation.can_remediate` false — and therefore every `triaged`
record a fresh handler invocation writes carries `remediation = false`. -/
theorem C10_remediation_always_none :
    (∀ (config : GuardianConfig) (run : WorkflowRun),
      attempt_remediation config [Strategy.format] run = none) ∧
    (∀ (config : GuardianConfig) (w : World) (p : Payload) (w2 : World)
       (trace : List PortOp),
      handle_workflow_run_completed config [Strategy.format] w p = .ok w2 trace →
      is_processed w (operationId p) = false →
      ∀ n b, alookup w2.store.ops ("op:" ++ operationId p) =
          some (.triaged n b) → b = false) := by
  have hnone : ∀ (config : GuardianConfig) (run : WorkflowRun),
      attempt_remediation config [Strategy.format] run = none := by
    intro config run
    unfold attempt_remediation
    cases hl : run.logs_url with
    | none => rfl
    | some u =>
      have hcr : can_remediate Strategy.format run "" = false := rfl
      simp [remediationLoop, hcr]
  refine ⟨hnone, ?_⟩
  intro config w p w2 trace h hfresh n b hlook
  obtain ⟨_, _, _, hcases⟩ := handle_ok_cases h
  rcases hcases with ⟨hp, _, _⟩ | ⟨_, run, _, _, hw2, _⟩ |
    ⟨_, run, gh2, nn, ghTr, _, _, _, hw2, _⟩
  · rw [hp] at hfresh; exact Bool.noConfusion hfresh
  · subst hw2
    rw [alookup_mark_processed] at hlook
    injection hlook with h1
    exact ProcResult.noConfusion h1
  · subst hw2
    rw [alookup_mark_processed] at hlook
    injection hlook with h1
    injection h1 with h2 h3
    have hrem : (if config.autofix_enabled = true then
        attempt_remediation config [Strategy.format] run else none) = none := by
      split
      · exact hnone config run
      · rfl
    rw [hrem] at h3
    exact h3.symm

/-- Witness for C10: a full fresh triage of the failing run `c10run` with
autofix enabled writes `remediation = false` into the processed record. -/
theorem C10_remediation_witness :
    attempt_remediation c10config [Strategy.format] c10wr = none ∧
    (false : Bool) = false := by
  constructor
  · exact C10_remediation_always_none.1 c10config c10wr
  · exact C10_remediation_always_none.2 c10config c10world c10payload c10world2
      (([.isProcessedQ, .getRunQ] : List PortOp) ++ [.searchIssues, .postIssue] ++
        [.linkFp, .markProcessed]) (by rfl) (by rfl) 1 false (by rfl)

/-! ### C4 and C8 -/

theorem containsSub_self (s : String) : containsSub s s = true :=
  decide_eq_true (List.infix_refl _)

/-- The search over `c4gh` finds the closed issue. -/
theorem c4find : find_existing_issue c4gh "o" "r" c4fp = some c4closed := by
  unfold find_existing_issue c4gh
  rw [List.find?_cons_of_pos]
  simp [c4closed, containsSub_self]

/-- Claim C4 counterexample: the search query has no open/closed filter —
a closed issue whose title contains the fingerprint hash is found by
`find_existing_issue` and then PATCHed (no new issue is posted), refuting
"the search matches only issues that are open". -/
theorem C4_counterexample :
    find_existing_issue c4gh "o" "r" c4fp = some c4closed ∧
    c4closed.state = .isClosed ∧
    create_or_update_issue noFail c4gh "o" "r" c4fp c4issue =
      .ok (githubPatchIssue c4gh 7 c4issue, 7, [.searchIssues, .patchIssue]) := by
  refine ⟨c4find, rfl, ?_⟩
  unfold create_or_update_issue
  rw [c4find]
  rfl

/-- Claim C4 (amended): `create_or_update_issue` first searches via
`find_existing_issue` — which matches an issue of the repository whose
title contains the fingerprint hash *regardless of its open or closed
state* — and PATCHes the found issue if one exists, else POSTs a new
one. -/
theorem C4_create_or_update :
    (∀ (gh : GitHubState) (owner repo : String) (fp : FailureFingerprint)
       (i : GhIssue), find_existing_issue gh owner repo fp = some i →
      i ∈ gh.issues ∧ i.owner = owner ∧ i.repo = repo ∧
        containsSub i.title fp.hash = true) ∧
    (∀ (gh : GitHubState) (owner repo : String) (fp : FailureFingerprint)
       (issue : TriageIssue) (i : GhIssue),
      find_existing_issue gh owner repo fp = some i →
      create_or_update_issue noFail gh owner repo fp issue =
        .ok (githubPatchIssue gh i.number issue, i.number,
             [.searchIssues, .patchIssue])) ∧
    (∀ (gh : GitHubState) (owner repo : String) (fp : FailureFingerprint)
       (issue : TriageIssue),
      find_existing_issue gh owner repo fp = none →
      create_or_update_issue noFail gh owner repo fp issue =
        .ok (githubPostIssue gh owner repo issue, gh.nextNumber,
             [.searchIssues, .postIssue])) := by
  refine ⟨?_, ?_, ?_⟩
  · intro gh owner repo fp i hfind
    unfold find_existing_issue at hfind
    have hmem := List.mem_of_find?_eq_some hfind
    have hpred := List.find?_some hfind
    simp only [Bool.and_eq_true, beq_iff_eq] at hpred
    exact ⟨hmem, hpred.1.1, hpred.1.2, hpred.2⟩
  · intro gh owner repo fp issue i hfind
    unfold create_or_update_issue
    rw [hfind]
    rfl
  · intro gh owner repo fp issue hfind
    unfold create_or_update_issue
    rw [hfind]
    rfl

/-- Witness for C4: the search/PATCH behaviour at the closed-issue state
and the POST behaviour at an issueless state. -/
theorem C4_create_or_update_witness :
    (c4closed ∈ c4gh.issues ∧ c4closed.owner = "o" ∧ c4closed.repo = "r" ∧
      containsSub c4closed.title c4fp.hash = true) ∧
    create_or_update_issue noFail c4gh "o" "r" c4fp c4issue =
      .ok (githubPatchIssue c4gh c4closed.number c4issue, c4closed.number,
           [.searchIssues, .patchIssue]) ∧
    create_or_update_issue noFail ⟨[], [], 1⟩ "o" "r" c4fp c4issue =
      .ok (githubPostIssue ⟨[], [], 1⟩ "o" "r" c4issue, 1,
           [.searchIssues, .postIssue]) :=
  ⟨C4_create_or_update.1 c4gh "o" "r" c4fp c4closed c4find,
   C4_create_or_update.2.1 c4gh "o" "r" c4fp c4issue c4closed c4find,
   C4_create_or_update.2.2 ⟨[], [], 1⟩ "o" "r" c4fp c4issue (by rfl)⟩

/-- The signature of `c8req` verifies against `c8secret`. -/
theorem c8verify :
    verify_signature c8req.rawBody c8req.x_hub_signature_256 c8secret = true := by
  simp [verify_signature, c8req]

/-- Claim C8 counterexample: a correctly signed `workflow_run.completed`
request whose downstream triage raises (the run fetch fails) makes the
exception escape the endpoint — the caller gets an error response, not a
terse acknowledgement. -/
theorem C8_counterexample :
    verify_signature c8req.rawBody c8req.x_hub_signature_256 c8secret = true ∧
    webhook {} c8secret c2world c8req =
      .unhandledError (.portFailure .getRunQ) c2world [.isProcessedQ] := by
  refine ⟨c8verify, ?_⟩
  unfold webhook
  rw [c8verify]
  rfl

/-- Claim C8 (amended): for every request passing signature verification,
events other than a completed `workflow_run` get the terse "ignored"
acknowledgement; a completed `workflow_run` gets "processed" exactly when
downstream triage succeeds, and an exception in downstream triage
propagates out of the endpoint as an error response rather than being
converted into an acknowledgement. -/
theorem C8_webhook_dispatch :
    ∀ (config : GuardianConfig) (secret : List Nat) (w : World)
      (req : WebhookRequest),
      verify_signature req.rawBody req.x_hub_signature_256 secret = true →
      (¬(req.x_github_event = "workflow_run" ∧ req.payload.action = "completed") →
        webhook config secret w req = .acknowledged "ignored" w []) ∧
      (req.x_github_event = "workflow_run" → req.payload.action = "completed" →
       ∀ w2 trace,
        (handle_workflow_run_completed config [Strategy.format] w req.payload =
            .ok w2 trace →
          webhook config secret w req = .acknowledged "processed" w2 trace) ∧
        (∀ e, handle_workflow_run_completed config [Strategy.format] w req.payload =
            .err e w2 trace →
          webhook config secret w req = .unhandledError e w2 trace)) := by
  intro config secret w req hv
  constructor
  · intro hne
    have hcond : (req.x_github_event == "workflow_run" &&
        req.payload.action == "completed") = false := by
      cases hb : (req.x_github_event == "workflow_run" &&
          req.payload.action == "completed")
      · rfl
      · exact absurd (by simpa [Bool.and_eq_true, beq_iff_eq] using hb) hne
    unfold webhook
    rw [hv, hcond]
    rfl
  · intro hev hac w2 trace
    have hcond : (req.x_github_event == "workflow_run" &&
        req.payload.action == "completed") = true := by
      simp [hev, hac]
    constructor
    · intro hok
      unfold webhook
      rw [hv, hcond, hok]
      rfl
    · intro e herr
      unfold webhook
      rw [hv, hcond, herr]
      rfl

/-- Witness for C8: the dispatch behaviour applied to the signed request
delivered with a `ping` event header. -/
theorem C8_webhook_dispatch_witness :
    webhook {} c8secret c2world c8reqPing = .acknowledged "ignored" c2world [] := by
  have h := C8_webhook_dispatch {} c8secret c2world c8reqPing
    (by simp [verify_signature, c8reqPing, c8req])
  exact h.1 (by simp [c8reqPing, c8req])

end RepoGuardian
